import Mathlib

/-!
Shallow embedding of the runtime core of the "Who Stole the Sun" 2D adventure
game (final iteration of the source): the Direction model, MotionMaster,
collision-mask resolver, Object/Scene model with z-sorting, the binary scene
persistence codec, the Talking game state, and the camera-shake controller.

C `float` values are modelled as real numbers (the spec requires floats to
round-trip bit-compatibly through serialization; arithmetic claims are stated
over the reals).  C `int` values are modelled as `Int`, C arrays indexed by an
`int` as functions out of `Nat` (the source performs no bounds checks; all
verified claims stay inside the arrays' capacity).  Functions of the game's
"core" layer, whose source is not part of the repository snapshot, are modelled
from the spec and marked as such in their doc comments.
-/

open Real

noncomputable section

namespace WhoSun

open scoped Classical

/-- Modelled from the spec: the game runs a fixed-rate 60 FPS frame loop, so
one frame lasts 1/60 seconds (`FRAME_TIME` in the core). -/
def FRAME_TIME : ℝ := 1 / 60

/-- Constant `SCENE_VERSION = 2` from the source. -/
def SCENE_VERSION : ℤ := 2

/-- Constant `DEFAULT_CAMERA_SHAKE_TRAUMA = 0.5f` from the source. -/
def DEFAULT_CAMERA_SHAKE_TRAUMA : ℝ := 1 / 2

/-- Constant `DEFAULT_CAMERA_SHAKE_FALLOFF = 0.7f * FRAME_TIME` from the source. -/
def DEFAULT_CAMERA_SHAKE_FALLOFF : ℝ := 7 / 10 * FRAME_TIME

/-- raylib `Rectangle`: top-left corner plus extent. -/
structure Rect where
  x : ℝ
  y : ℝ
  width : ℝ
  height : ℝ

/-- Modelled from the spec (external collaborator): raylib
`CheckCollisionPointRec` tests whether a point lies inside a rectangle
(left/top edges inclusive, right/bottom edges exclusive). -/
def CheckCollisionPointRec (point : ℝ × ℝ) (rec : Rect) : Prop :=
  rec.x ≤ point.1 ∧ point.1 < rec.x + rec.width ∧
    rec.y ≤ point.2 ∧ point.2 < rec.y + rec.height

/-- raymath `Lerp(start, end, amount) = start + amount * (end - start)`. -/
def Lerp (a b t : ℝ) : ℝ := a + t * (b - a)

/-- raymath `Vector2Distance`: the Euclidean distance between two points. -/
def Vector2Distance (a b : ℝ × ℝ) : ℝ :=
  Real.sqrt ((a.1 - b.1) * (a.1 - b.1) + (a.2 - b.2) * (a.2 - b.2))

/-- Modelled from the spec: the core's `ClampInt(x, lo, hi)` clamps an integer
into the closed interval `[lo, hi]`. -/
def ClampInt (x lo hi : ℤ) : ℤ :=
  if x < lo then lo else if x > hi then hi else x

/-- Modelled from the spec: the core's `Wrap(x, lo, hi)` (raymath semantics)
wraps `x` into the half-open interval `[lo, hi)` by subtracting the right
multiple of the interval's width. -/
def Wrap (x lo hi : ℝ) : ℝ :=
  x - (hi - lo) * ⌊(x - lo) / (hi - lo)⌋

/-- Modelled from the spec: the core's `Vector2Atan v` computes the vector's
angle, i.e. `atan2(v.y, v.x)`, the argument of the complex number
`v.x + v.y * i`, in the range `(-pi, pi]`. -/
def Vector2Atan (v : ℝ × ℝ) : ℝ := Complex.arg (v.1 + v.2 * Complex.I)

/-- Function `DirectionFromVector` from the source (`main.cpp`):
maps a non-zero 2D vector to one of the 8 compass octants, counted
counter-clockwise from facing +x.  `roundf` rounds half away from zero, which
agrees with Mathlib `round` (round half up) on the nonnegative inputs that
occur here; the `(int)` cast of the integral nonnegative float is exact. -/
def DirectionFromVector (v : ℝ × ℝ) : ℤ :=
  let angleTaus : ℝ := Wrap (Vector2Atan v) 0 (2 * π) / (2 * π)
  let index : ℤ := round (angleTaus * 8)
  let index1 : ℤ := if index ≥ 8 then 0 else index
  let index2 : ℤ := if index1 < 0 then 8 - 1 else index1
  index2

/-- Modelled from the spec: `MirrorDirectionVertically` flips a facing
left-to-right (angle theta to pi - theta), the animation fallback used when no
sprite exists for the true direction; on octant indices this is
`(4 - d) mod 8`.  It is its own inverse on `[0, 8)`. -/
def MirrorDirectionVertically (d : ℤ) : ℤ := (4 - d) % 8

/-- A texture asset: the path it was acquired by, and its pixel dimensions. -/
structure Texture where
  path : String
  width : ℤ
  height : ℤ

/-- A sprite asset: an ordered sequence of texture frames. -/
structure Sprite where
  path : String
  frames : List Texture

/-- A collision-mask image asset: `red x y` is the red channel (0..255) of the
pixel at integer coordinates `(x, y)`, as returned by raylib `GetImageColor`. -/
structure Image where
  path : String
  width : ℤ
  height : ℤ
  red : ℤ → ℤ → ℕ

/-- One paragraph of a dialogue script: optional speaker name and the duration
of its typewriter reveal. -/
structure Paragraph where
  speaker : Option String
  duration : ℝ

/-- A dialogue script asset.  `commandIndex` is the script's mutable playback
cursor (reset when a new paragraph starts). -/
structure Script where
  path : String
  paragraphs : List Paragraph
  commandIndex : ℤ

/-- A named dialogue expression: portrait texture selected by name. -/
structure Expression where
  name : String
  portrait : Option Texture

/-- Modelled from the spec: the external reference-counted asset cache,
acquiring assets by path.  The core only ever holds handles obtained from it. -/
structure AssetCache where
  script : String → Option Script
  image : String → Option Image
  sprite : String → Option Sprite
  texture : String → Option Texture

/-- Modelled from the spec: `GetAssetPath` returns the path an asset handle was
acquired by, and the empty string for a null handle (one definition per asset
type, since the modelled handles have different types). -/
def GetScriptAssetPath : Option Script → String
  | none => ""
  | some s => s.path

/-- The `GetAssetPath` variant for collision-map image handles. -/
def GetImageAssetPath : Option Image → String
  | none => ""
  | some i => i.path

/-- The `GetAssetPath` variant for sprite handles. -/
def GetSpriteAssetPath : Option Sprite → String
  | none => ""
  | some s => s.path

/-- The `GetAssetPath` variant for texture handles. -/
def GetTextureAssetPath : Option Texture → String
  | none => ""
  | some t => t.path

/-- Modelled from the spec: `AcquireScript` acquires a script handle by path
from the external cache; the empty path stands for "no asset". -/
def AcquireScript (C : AssetCache) (path : String) : Option Script :=
  if path = "" then none else C.script path

/-- Modelled from the spec: `AcquireCollisionMap` acquires an image handle. -/
def AcquireCollisionMap (C : AssetCache) (path : String) : Option Image :=
  if path = "" then none else C.image path

/-- Modelled from the spec: `AcquireSprite` acquires a sprite handle. -/
def AcquireSprite (C : AssetCache) (path : String) : Option Sprite :=
  if path = "" then none else C.sprite path

/-- Modelled from the spec: `AcquireTexture` acquires a texture handle. -/
def AcquireTexture (C : AssetCache) (path : String) : Option Texture :=
  if path = "" then none else C.texture path

/-- Struct `MotionMaster` from the source: the per-object linear-interpolation
motion controller. -/
structure MotionMaster where
  currentPoint : ℝ × ℝ
  isMoving : Bool
  startPoint : ℝ × ℝ
  endPoint : ℝ × ℝ
  motionTime : ℝ
  arrivalTime : ℝ
  speed : ℝ

/-- A `MotionMaster` as produced by its C++ member initializers (vectors
zero-initialized, `isMoving = false`, `speed = 10`). -/
def defaultMotionMaster : MotionMaster :=
  { currentPoint := (0, 0), isMoving := false, startPoint := (0, 0),
    endPoint := (0, 0), motionTime := 0, arrivalTime := 0, speed := 10 }

/-- A zero-filled `MotionMaster`, as left behind by `ZeroBytes` in
`Destroy` (note: `speed` is 0 here, not the default 10). -/
def zeroMotionMaster : MotionMaster :=
  { currentPoint := (0, 0), isMoving := false, startPoint := (0, 0),
    endPoint := (0, 0), motionTime := 0, arrivalTime := 0, speed := 0 }

/-- Method `MotionMaster::MoveToPoint` from the source: a no-op when `start == end`;
otherwise records the endpoints, recomputes the arrival time from the
straight-line distance and the current speed, and starts moving. -/
def MotionMaster.moveToPoint (m : MotionMaster) (start stop : ℝ × ℝ) :
    MotionMaster :=
  if start = stop then m
  else
    { m with
      startPoint := start
      endPoint := stop
      arrivalTime := Vector2Distance start stop / m.speed
      isMoving := true }

/-- Method `MotionMaster::Reset` from the source. -/
def MotionMaster.reset (m : MotionMaster) : MotionMaster :=
  { m with
    endPoint := (0, 0)
    startPoint := (0, 0)
    isMoving := false
    motionTime := 0
    arrivalTime := 0
    speed := 10 }

/-- Method `MotionMaster::Update` from the source: a no-op while idle; advances the
elapsed time by `FRAME_TIME * speed` and lerps the current point while the
advanced time stays within the arrival time, and otherwise snaps the current
point to the end point and calls `Reset`. -/
def MotionMaster.update (m : MotionMaster) : MotionMaster :=
  if m.isMoving then
    if m.motionTime + FRAME_TIME * m.speed ≤ m.arrivalTime then
      let mt := m.motionTime + FRAME_TIME * m.speed
      { m with
        motionTime := mt
        currentPoint := (Lerp m.startPoint.1 m.endPoint.1 (mt / m.arrivalTime),
                         Lerp m.startPoint.2 m.endPoint.2 (mt / m.arrivalTime)) }
    else
      MotionMaster.reset { m with currentPoint := m.endPoint }
  else m

/-- Struct `Object` from the source: an entity of the flat scene table.
The `sprites` array (8 slots, one per `Direction`) and the `expressions` array
(10 slots) are modelled as functions out of `Nat`; the verified claims only
access indices below the arrays' capacity. -/
structure Object where
  name : String
  position : ℝ × ℝ
  zOffset : ℝ
  direction : ℤ
  sprites : ℕ → Option Sprite
  animationFps : ℝ
  animationTimeAccumulator : ℝ
  animationFrame : ℤ
  collisionMap : Option Image
  script : Option Script
  numExpressions : ℤ
  expressions : ℕ → Expression
  motionMaster : MotionMaster

/-- A zero-filled `Expression`, as produced by `ZeroBytes`. -/
def zeroExpression : Expression := { name := "", portrait := none }

/-- A zero-filled `Object`: the contents of a scene-table slot after
`Destroy` (`ZeroBytes`) and of the zero-initialized global array. -/
def zeroObject : Object :=
  { name := ""
    position := (0, 0)
    zOffset := 0
    direction := 0
    sprites := fun _ => none
    animationFps := 0
    animationTimeAccumulator := 0
    animationFrame := 0
    collisionMap := none
    script := none
    numExpressions := 0
    expressions := fun _ => zeroExpression
    motionMaster := zeroMotionMaster }

/-- Function `GetCurrentSprite` from the source: the sprite for the object's current
direction, falling back to the vertically mirrored direction. -/
def GetCurrentSprite (o : Object) : Option Sprite :=
  match o.sprites o.direction.toNat with
  | some s => some s
  | none => o.sprites (MirrorDirectionVertically o.direction).toNat

/-- Function `GetCurrentTexture` from the source: the current animation frame of the
resolved sprite (an out-of-range frame index is undefined behaviour in the
source and modelled by a default frame); no sprite means no texture. -/
def GetCurrentTexture (o : Object) : Option Texture :=
  match GetCurrentSprite o with
  | none => none
  | some s => some (s.frames.getD o.animationFrame.toNat { path := "", width := 0, height := 0 })

/-- Function `GetFootPositionInScreenSpace` from the source: the object's position,
with y pushed down by half the current texture's height when a texture
resolves. -/
def GetFootPositionInScreenSpace (o : Object) : ℝ × ℝ :=
  match GetCurrentTexture o with
  | none => o.position
  | some t => (o.position.1, o.position.2 + (t.height : ℝ) * (1 / 2))

/-- The z-sort key used by `GetZSortedObjects`'s comparator:
screen-space foot y plus the manual z offset. -/
def zKey (o : Object) : ℝ := (GetFootPositionInScreenSpace o).2 + o.zOffset

/-- The comparator passed to the core `Sort` by `GetZSortedObjects`:
-1 when the left key is larger (sorts descending), +1 when smaller, 0 on
ties. -/
def zCompare (l r : Object) : ℤ :=
  if zKey l > zKey r then -1 else if zKey l < zKey r then 1 else 0

/-- Function `GetZSortedObjects` from the source, on the scene table's first
`numObjects` entries given as a list.  The core's `Sort` is not part of the
repository snapshot; modelled from the spec as a sort by the comparator
(ties in arbitrary order), here insertion sort with "comparator at most 0"
as the ordering relation. -/
def GetZSortedObjects (objs : List Object) : List Object :=
  List.insertionSort (fun a b => zCompare a b ≤ 0) objs

/-- Function `CheckCollisionMap` from the source (final iteration): a point is blocked
iff its floored coordinates are inside the mask and the red channel there is
below 128; any out-of-bounds point is not blocked. -/
def CheckCollisionMap (map : Image) (position : ℝ × ℝ) : Prop :=
  let xi : ℤ := ⌊position.1⌋
  let yi : ℤ := ⌊position.2⌋
  if xi < 0 then False
  else if xi ≥ map.width then False
  else if yi < 0 then False
  else if yi ≥ map.height then False
  else map.red xi yi < 128

/-- The mask rectangle built inside `MovePointWithCollisions`'s loop:
centered on the object's position, sized to the mask's pixel dimensions. -/
def collisionRect (o : Object) (cm : Image) : Rect :=
  { x := o.position.1 - 1 / 2 * (cm.width : ℝ)
    y := o.position.2 - 1 / 2 * (cm.height : ℝ)
    width := (cm.width : ℝ)
    height := (cm.height : ℝ) }

/-- The loop of `MovePointWithCollisions` over the scene table: the first
object owning a collision mask whose rectangle contains the candidate point
and whose local mask pixel is blocked rejects the move. -/
def MovePointLoop (position newPosition : ℝ × ℝ) : List Object → ℝ × ℝ
  | [] => newPosition
  | o :: rest =>
    match o.collisionMap with
    | none => MovePointLoop position newPosition rest
    | some cm =>
      let rectangle := collisionRect o cm
      let topLeft : ℝ × ℝ := (rectangle.x, rectangle.y)
      let localPosition := newPosition - topLeft
      if CheckCollisionPointRec newPosition rectangle ∧
          CheckCollisionMap cm localPosition then position
      else MovePointLoop position newPosition rest

/-- Function `MovePointWithCollisions` from the source: all-or-nothing point movement
against every collision mask in the scene table. -/
def MovePointWithCollisions (objs : List Object) (position velocity : ℝ × ℝ) :
    ℝ × ℝ :=
  MovePointLoop position (position + velocity) objs

/-- The rejection condition of `MovePointWithCollisions`'s loop body for a
single object, used to state its specification. -/
def BlocksPoint (o : Object) (newPosition : ℝ × ℝ) : Prop :=
  match o.collisionMap with
  | none => False
  | some cm =>
    CheckCollisionPointRec newPosition (collisionRect o cm) ∧
      CheckCollisionMap cm (newPosition - ((collisionRect o cm).x, (collisionRect o cm).y))

/-- The camera-shake portion of the global camera state. -/
structure CameraShake where
  trauma : ℝ
  falloff : ℝ

/-- Function `UpdateCameraShake` from the source: trauma decays by the falloff rate;
when it would reach zero or below it is clamped to exactly zero and the
falloff rate is restored to its default. -/
def UpdateCameraShake (c : CameraShake) : CameraShake :=
  let trauma1 := c.trauma - c.falloff
  if trauma1 ≤ 0 then
    { trauma := 0, falloff := DEFAULT_CAMERA_SHAKE_FALLOFF }
  else
    { trauma := trauma1, falloff := c.falloff }

/-- The global scene state touched by the persistence codec: the fixed
100-slot object table (modelled as a function; the source indexes it without
bounds checks), the live object count, and `lastSavedOrLoadedScene`
(a 256-byte char buffer in the source). -/
structure Scene where
  objects : ℕ → Object
  numObjects : ℤ
  lastSavedOrLoadedScene : String

/-- One element of the modelled binary stream.  Modelled from the spec: the
core's `BinaryStream` writes raw bytes, 32-bit integers, 32-bit floats and
strings, and each reader returns exactly what the matching writer wrote
(integers and floats round-trip exactly, strings round-trip exactly). -/
inductive Tok where
  | byte (b : ℕ)
  | int (i : ℤ)
  | flt (x : ℝ)
  | str (s : String)

/-- Modelled from the spec: `ReadBytes(stream, n)` yields the next `n` raw
stream elements and the remaining stream. -/
def ReadBytes (n : ℕ) (s : List Tok) : List Tok × List Tok :=
  (s.take n, s.drop n)

/-- Modelled from the spec: `ReadInt` reads back a 32-bit integer exactly as
written.  Reading past the end or against a differently-typed write is
undefined in the source and modelled as 0. -/
def ReadInt : List Tok → ℤ × List Tok
  | Tok.int i :: rest => (i, rest)
  | s => (0, s)

/-- Modelled from the spec: `ReadFloat` reads back a 32-bit float
bit-compatibly (here: exactly). -/
def ReadFloat : List Tok → ℝ × List Tok
  | Tok.flt x :: rest => (x, rest)
  | s => (0, s)

/-- Modelled from the spec: `ReadString` reads back a string exactly as the
writer encoded it. -/
def ReadString : List Tok → String × List Tok
  | Tok.str t :: rest => (t, rest)
  | s => ("", s)

/-- The 4 magic bytes `SCENE_MAGIC = "KEKW"` as stream elements
(ASCII 75, 69, 75, 87). -/
def sceneMagic : List Tok := [Tok.byte 75, Tok.byte 69, Tok.byte 75, Tok.byte 87]

/-- The core's `CopyString(dst, src, bufSize)`: copies at most `bufSize - 1`
characters into the destination buffer and NUL-terminates. -/
def CopyString (src : String) (bufSize : ℕ) : String :=
  String.mk (src.data.take (bufSize - 1))

/-- The stream elements `SaveScene` writes for one object, in the source's
field order: name, position.x, position.y, zOffset, animationFps, direction,
script path, collision-map path, the 8 per-direction sprite paths, then the
10 expression name/portrait-path pairs. -/
def WriteObject (o : Object) : List Tok :=
  [Tok.str o.name,
   Tok.flt o.position.1, Tok.flt o.position.2,
   Tok.flt o.zOffset, Tok.flt o.animationFps,
   Tok.int o.direction,
   Tok.str (GetScriptAssetPath o.script),
   Tok.str (GetImageAssetPath o.collisionMap)]
  ++ ((List.range 8).map fun d => Tok.str (GetSpriteAssetPath (o.sprites d)))
  ++ ((List.range 10).flatMap fun j =>
      [Tok.str (o.expressions j).name,
       Tok.str (GetTextureAssetPath (o.expressions j).portrait)])

/-- The `SaveScene` loop over the object table: writes `k` objects starting at
slot `i`. -/
def WriteObjects (objs : ℕ → Object) : ℕ → ℕ → List Tok
  | 0, _ => []
  | k + 1, i => WriteObject (objs i) ++ WriteObjects objs k (i + 1)

/-- The full stream `SaveScene` builds: magic, version, object count, then
each live object in slot order. -/
def SaveSceneData (s : Scene) : List Tok :=
  sceneMagic ++ [Tok.int SCENE_VERSION, Tok.int s.numObjects]
    ++ WriteObjects s.objects s.numObjects.toNat 0

/-- Function `SaveScene` from the source: serializes the scene table into a buffer and
writes it to the file at `path` in one call (file write modelled as returning
the buffer; the success path records the path as last used). -/
def SaveScene (s : Scene) (path : String) : List Tok × Scene :=
  (SaveSceneData s, { s with lastSavedOrLoadedScene := CopyString path 256 })

/-- The `LoadScene` inner loop over the 8 sprite slots: reads `n` strings and
returns them with the remaining stream. -/
def ReadStrings : ℕ → List Tok → List String × List Tok
  | 0, s => ([], s)
  | n + 1, s =>
    let r := ReadString s
    let rs := ReadStrings n r.2
    (r.1 :: rs.1, rs.2)

/-- The `LoadScene` inner loop over the 10 expression slots: reads `n`
name/portrait-path string pairs. -/
def ReadStringPairs : ℕ → List Tok → List (String × String) × List Tok
  | 0, s => ([], s)
  | n + 1, s =>
    let r1 := ReadString s
    let r2 := ReadString r1.2
    let rs := ReadStringPairs n r2.2
    ((r1.1, r2.1) :: rs.1, rs.2)

/-- The `LoadScene` per-object body: reads the serialized fields in the same
fixed order as `WriteObject` into the given table slot, truncating the name
to its 50-byte buffer and each expression name to its 32-byte buffer, and
acquiring each referenced asset by its stored path.  Fields that are not
serialized (animation accumulator/frame, expression count, motion state)
keep the slot's previous contents. -/
def ReadObject (C : AssetCache) (prev : Object) (s : List Tok) :
    Object × List Tok :=
  let rname := ReadString s
  let rx := ReadFloat rname.2
  let ry := ReadFloat rx.2
  let rz := ReadFloat ry.2
  let rfps := ReadFloat rz.2
  let rdir := ReadInt rfps.2
  let rscript := ReadString rdir.2
  let rcol := ReadString rscript.2
  let rsprites := ReadStrings 8 rcol.2
  let rexprs := ReadStringPairs 10 rsprites.2
  ({ prev with
      name := CopyString rname.1 50
      position := (rx.1, ry.1)
      zOffset := rz.1
      animationFps := rfps.1
      direction := rdir.1
      script := AcquireScript C rscript.1
      collisionMap := AcquireCollisionMap C rcol.1
      sprites := fun d =>
        if d < 8 then AcquireSprite C (rsprites.1.getD d "") else prev.sprites d
      expressions := fun j =>
        if j < 10 then
          { name := CopyString ((rexprs.1.getD j ("", "")).1) 32
            portrait := AcquireTexture C ((rexprs.1.getD j ("", "")).2) }
        else prev.expressions j },
   rexprs.2)

/-- The `LoadScene` loop over the object table: reads `k` objects into
consecutive slots starting at `i`. -/
def ReadObjects (C : AssetCache) :
    ℕ → ℕ → (ℕ → Object) → List Tok → (ℕ → Object) × List Tok
  | 0, _, objs, s => (objs, s)
  | k + 1, i, objs, s =>
    let r := ReadObject C (objs i) s
    ReadObjects C k (i + 1) (Function.update objs i r.1) r.2

/-- The outcome `LoadScene` reports (each failure is a distinct logged
error in the source). -/
inductive LoadResult where
  | fileError
  | badMagic
  | badVersion
  | success
deriving DecidableEq

/-- Function `LoadScene` from the source: reads the whole file (`none` models a
missing or unreadable file), verifies the 4 magic bytes and then the version
exactly, aborting without touching the scene state on any mismatch; on
success destroys the live objects (zero-filling their slots), takes the new
object count from the stream, populates that many slots field-by-field, and
records the path as last used. -/
def LoadScene (C : AssetCache) (file : Option (List Tok)) (path : String)
    (s : Scene) : Scene × LoadResult :=
  match file with
  | none => (s, LoadResult.fileError)
  | some data =>
    let rmagic := ReadBytes 4 data
    if rmagic.1 ≠ sceneMagic then (s, LoadResult.badMagic)
    else
      let rver := ReadInt rmagic.2
      if rver.1 ≠ SCENE_VERSION then (s, LoadResult.badVersion)
      else
        let destroyed : ℕ → Object :=
          fun i => if (i : ℤ) < s.numObjects then zeroObject else s.objects i
        let rn := ReadInt rver.2
        let robjs := ReadObjects C rn.1.toNat 0 destroyed rn.2
        ({ objects := robjs.1
           numObjects := rn.1
           lastSavedOrLoadedScene := CopyString path 256 },
         LoadResult.success)

/-- The object a scene slot holds after `LoadScene` has read back the fields
`SaveScene` wrote for object `o` into a slot previously holding `prev`
(proof-scaffolding description of `ReadObject` on `WriteObject` output). -/
def RestoredObject (C : AssetCache) (prev o : Object) : Object :=
  { prev with
    name := CopyString o.name 50
    position := o.position
    zOffset := o.zOffset
    animationFps := o.animationFps
    direction := o.direction
    script := AcquireScript C (GetScriptAssetPath o.script)
    collisionMap := AcquireCollisionMap C (GetImageAssetPath o.collisionMap)
    sprites := fun d =>
      if d < 8 then AcquireSprite C (GetSpriteAssetPath (o.sprites d))
      else prev.sprites d
    expressions := fun j =>
      if j < 10 then
        { name := CopyString (o.expressions j).name 32
          portrait := AcquireTexture C (GetTextureAssetPath (o.expressions j).portrait) }
      else prev.expressions j }

/-- The conditions under which one object serializes losslessly: its name and
expression names fit untruncated in their fixed buffers, and re-acquiring
each held asset by its stored path yields that asset again (the behaviour of
the external path-keyed reference-counting cache). -/
def ObjectSavable (C : AssetCache) (o : Object) : Prop :=
  o.name.length ≤ 49 ∧
  (∀ j < 10, ((o.expressions j).name).length ≤ 31) ∧
  AcquireScript C (GetScriptAssetPath o.script) = o.script ∧
  AcquireCollisionMap C (GetImageAssetPath o.collisionMap) = o.collisionMap ∧
  (∀ d < 8, AcquireSprite C (GetSpriteAssetPath (o.sprites d)) = o.sprites d) ∧
  (∀ j < 10, AcquireTexture C (GetTextureAssetPath ((o.expressions j).portrait))
      = (o.expressions j).portrait)

/-- The four game states registered in the source. -/
inductive GameState where
  | playing
  | talking
  | paused
  | editor
deriving DecidableEq

/-- The inputs read by `Talking_Update` in one frame. -/
structure TalkingInput where
  pauseWasPressed : Bool
  interactWasPressed : Bool
  devMode : Bool
  keyLeftPressed : Bool
  keyRightPressed : Bool

/-- The state `Talking_Update` reads and writes: the talking object's script,
the global `paragraphIndex`, the current game state's frame counter (the
core's per-activation counter, set through
`SetFrameNumberInCurrentGameState`), the game-state stack (top first,
modelled from the spec), and the camera-shake state. -/
structure TalkingState where
  script : Script
  paragraphIndex : ℤ
  frameNumber : ℤ
  stack : List GameState
  camera : CameraShake

/-- Modelled from the spec: `GetTimeInCurrentGameState` converts the current
state's frame counter to seconds of the fixed-rate frame loop. -/
def GetTimeInCurrentGameState (st : TalkingState) : ℝ :=
  (st.frameNumber : ℝ) * FRAME_TIME

/-- Function `Talking_Init` from the source: stores the talking object, rewinds its
script's command cursor and starts at paragraph 0 (the core resets the
activation's frame counter to zero on push). -/
def Talking_Init (st : TalkingState) : TalkingState :=
  { st with
    script := { st.script with commandIndex := 0 }
    paragraphIndex := 0
    frameNumber := 0 }

/-- The code `Talking_Update` runs after the interact branch when it does not
return early: rewind the script's command cursor if the paragraph changed,
then update the camera shake.  `p` carries the paragraph index and frame
number produced so far. -/
def finishTalking (st : TalkingState) (prev : ℤ) (p : ℤ × ℤ) : TalkingState :=
  { st with
    paragraphIndex := p.1
    frameNumber := p.2
    script := if p.1 ≠ prev then { st.script with commandIndex := 0 } else st.script
    camera := UpdateCameraShake st.camera }

/-- Function `Talking_Update` from the source: pushes Paused on a pause press; clamps
the paragraph index under the script's paragraph count; handles the dev-mode
arrow-key navigation; on an interact press either fast-forwards the current
paragraph's reveal (when `20 * t` has not yet reached the paragraph's
duration) or advances the paragraph index, popping the state (early return:
no command-cursor sync, no camera update) exactly when the incremented index
reaches the paragraph count. -/
def Talking_Update (inp : TalkingInput) (st : TalkingState) : TalkingState :=
  if inp.pauseWasPressed then
    { st with stack := GameState.paused :: st.stack }
  else
    let prevParagraphIndex := st.paragraphIndex
    let numParagraphs : ℤ := (st.script.paragraphs.length : ℤ)
    let pi1 : ℤ :=
      if st.paragraphIndex ≥ numParagraphs then numParagraphs - 1
      else st.paragraphIndex
    let p2 : ℤ × ℤ :=
      if inp.devMode && inp.keyLeftPressed then
        (ClampInt (pi1 - 1) 0 (numParagraphs - 1), 0)
      else (pi1, st.frameNumber)
    let p3 : ℤ × ℤ :=
      if inp.devMode && inp.keyRightPressed then
        if p2.1 = numParagraphs - 1 then (p2.1, 99999)
        else (ClampInt (p2.1 + 1) 0 (numParagraphs - 1), 0)
      else p2
    if inp.interactWasPressed then
      let t : ℝ := (p3.2 : ℝ) * FRAME_TIME
      let paragraphDuration :=
        (st.script.paragraphs.getD p3.1.toNat { speaker := none, duration := 0 }).duration
      if 20 * t < paragraphDuration then
        finishTalking st prevParagraphIndex (p3.1, 99999)
      else
        let pi4 := p3.1 + 1
        if pi4 ≥ numParagraphs then
          { st with
            paragraphIndex := pi4
            frameNumber := p3.2
            stack := st.stack.tail }
        else finishTalking st prevParagraphIndex (pi4, 0)
    else finishTalking st prevParagraphIndex p3

/-- Save-then-load composition: `SaveScene` to a path followed by `LoadScene`
from that same path, the loaded file contents being exactly the buffer the
save wrote. -/
def RoundTrip (C : AssetCache) (s : Scene) (path : String) : Scene × LoadResult :=
  LoadScene C (some (SaveScene s path).1) path (SaveScene s path).2

/-- Witness fixture: an asset cache with no assets. -/
def wCache : AssetCache :=
  { script := fun _ => none, image := fun _ => none, sprite := fun _ => none,
    texture := fun _ => none }

/-- Witness fixture: a scene holding one (empty) object. -/
def wScene : Scene :=
  { objects := fun _ => zeroObject, numObjects := 1,
    lastSavedOrLoadedScene := "" }

/-- Witness fixture: a one-paragraph script. -/
def wTalkScript : Script :=
  { path := "s.txt", paragraphs := [{ speaker := none, duration := 0 }],
    commandIndex := 0 }

/-- Witness fixture: a Talking activation (on top of Playing) at paragraph 0
whose reveal has completed. -/
def wTalkState : TalkingState :=
  { script := wTalkScript, paragraphIndex := 0, frameNumber := 0,
    stack := [GameState.talking, GameState.playing],
    camera := { trauma := 0, falloff := 0 } }

/-- Witness fixture: a frame with only the interact button pressed. -/
def wTalkInput : TalkingInput :=
  { pauseWasPressed := false, interactWasPressed := true, devMode := false,
    keyLeftPressed := false, keyRightPressed := false }

/-! ### Theorems -/

/-- C4: For every mask image and every point, `CheckCollisionMap` returns true
(blocked) exactly when the point's integer-floored coordinates lie within the
mask's bounds and the pixel's red channel there is below 128; a point outside
the mask's bounds is reported as not blocked. -/
theorem checkCollisionMap_spec (m : Image) (p : ℝ × ℝ) :
    CheckCollisionMap m p ↔
      (0 ≤ ⌊p.1⌋ ∧ ⌊p.1⌋ < m.width ∧ 0 ≤ ⌊p.2⌋ ∧ ⌊p.2⌋ < m.height ∧
        m.red ⌊p.1⌋ ⌊p.2⌋ < 128) := by
  unfold CheckCollisionMap
  dsimp only
  split_ifs with h1 h2 h3 h4 <;>
    constructor <;> intro h <;>
      first
        | exact h.elim
        | omega

/-- C10: After every call to `UpdateCameraShake` the trauma value is
nonnegative: the call decreases trauma by the current falloff rate, and
whenever the result would be zero or below, trauma is set to exactly zero and
the falloff rate is restored to its default (so a custom falloff persists
only until the current shake decays to zero). -/
theorem updateCameraShake_spec (c : CameraShake) :
    0 ≤ (UpdateCameraShake c).trauma ∧
    (c.trauma - c.falloff ≤ 0 →
      UpdateCameraShake c =
        { trauma := 0, falloff := DEFAULT_CAMERA_SHAKE_FALLOFF }) ∧
    (0 < c.trauma - c.falloff →
      UpdateCameraShake c = { trauma := c.trauma - c.falloff, falloff := c.falloff }) := by
  unfold UpdateCameraShake
  dsimp only
  split_ifs with h
  · exact ⟨le_refl 0, fun _ => rfl, fun h2 => absurd h (not_le.mpr h2)⟩
  · exact ⟨le_of_lt (not_le.mp h), fun h2 => absurd h2 (not_le.mpr (not_le.mp h)), fun _ => rfl⟩

/-- Witness for C10 at a concrete shake state: trauma 1 with falloff 2 decays
to exactly zero and restores the default falloff. -/
theorem updateCameraShake_spec_witness :
    UpdateCameraShake { trauma := 1, falloff := 2 } =
      { trauma := 0, falloff := DEFAULT_CAMERA_SHAKE_FALLOFF } :=
  (updateCameraShake_spec { trauma := 1, falloff := 2 }).2.1 (by norm_num)

/-- C8: For every MotionMaster state and every point `p`, calling
`MoveToPoint(p, p)` changes no field of the MotionMaster. -/
theorem moveToPoint_same_noop (m : MotionMaster) (p : ℝ × ℝ) :
    m.moveToPoint p p = m := by
  unfold MotionMaster.moveToPoint
  simp

/-- The loop of `MovePointWithCollisions` rejects the candidate point exactly
when some object in the list blocks it. -/
theorem movePointLoop_spec (position newPosition : ℝ × ℝ) (objs : List Object) :
    MovePointLoop position newPosition objs =
      if ∃ o ∈ objs, BlocksPoint o newPosition then position else newPosition := by
  induction objs with
  | nil => simp [MovePointLoop]
  | cons o rest ih =>
    have hcons : (∃ x ∈ o :: rest, BlocksPoint x newPosition) ↔
        BlocksPoint o newPosition ∨ ∃ x ∈ rest, BlocksPoint x newPosition := by
      constructor
      · rintro ⟨x, hx, hbx⟩
        rcases List.mem_cons.mp hx with h | h
        · exact Or.inl (h ▸ hbx)
        · exact Or.inr ⟨x, h, hbx⟩
      · rintro (h | ⟨x, hx, hbx⟩)
        · exact ⟨o, List.mem_cons_self o rest, h⟩
        · exact ⟨x, List.mem_cons.mpr (Or.inr hx), hbx⟩
    unfold MovePointLoop
    cases hcm : o.collisionMap with
    | none =>
      dsimp only
      have hb : ¬ BlocksPoint o newPosition := by simp [BlocksPoint, hcm]
      rw [ih]
      by_cases hrest : ∃ x ∈ rest, BlocksPoint x newPosition
      · rw [if_pos hrest, if_pos (hcons.mpr (Or.inr hrest))]
      · rw [if_neg hrest, if_neg (fun hc => (hcons.mp hc).elim hb hrest)]
    | some cm =>
      dsimp only
      have hbiff : BlocksPoint o newPosition ↔
          (CheckCollisionPointRec newPosition (collisionRect o cm) ∧
            CheckCollisionMap cm
              (newPosition - ((collisionRect o cm).x, (collisionRect o cm).y))) := by
        simp [BlocksPoint, hcm]
      by_cases hblk : CheckCollisionPointRec newPosition (collisionRect o cm) ∧
          CheckCollisionMap cm (newPosition - ((collisionRect o cm).x, (collisionRect o cm).y))
      · rw [if_pos hblk, if_pos (hcons.mpr (Or.inl (hbiff.mpr hblk)))]
      · rw [if_neg hblk, ih]
        by_cases hrest : ∃ x ∈ rest, BlocksPoint x newPosition
        · rw [if_pos hrest, if_pos (hcons.mpr (Or.inr hrest))]
        · rw [if_neg hrest,
            if_neg (fun hc => (hcons.mp hc).elim (fun hb => hblk (hbiff.mp hb)) hrest)]

/-- C3: For every position and velocity, `MovePointWithCollisions` returns
either the original position or position + velocity and nothing else: the
original position exactly when some object in the scene table owning a
collision mask has its mask rectangle (centered on the object's position,
sized to the mask's pixel dimensions) containing the candidate point and the
corresponding local mask pixel blocked; otherwise position + velocity (the
first rejecting object ending the scan cannot change this result). -/
theorem movePointWithCollisions_spec (objs : List Object) (position velocity : ℝ × ℝ) :
    MovePointWithCollisions objs position velocity =
      if ∃ o ∈ objs, BlocksPoint o (position + velocity) then position
      else position + velocity := by
  unfold MovePointWithCollisions
  exact movePointLoop_spec position (position + velocity) objs

/-- C7: `MoveToPoint(p, q)` with p ≠ q records start `p`, end `q`, arrival
time distance/speed and starts moving; every `Update` on a moving state
advances the elapsed time by `FRAME_TIME * speed` and lerps the current point
by the elapsed/arrival fraction while the advanced time stays within the
arrival time, and on the first `Update` where it would exceed the arrival
time sets the current point exactly to the end point `q`, clears `isMoving`
and resets all transient fields to their defaults, including the default
speed 10. -/
theorem motionMaster_move_update_spec (m0 m : MotionMaster) (p q : ℝ × ℝ)
    (hpq : p ≠ q) (hmv : m.isMoving = true) (hend : m.endPoint = q) :
    ((m0.moveToPoint p q).startPoint = p ∧
     (m0.moveToPoint p q).endPoint = q ∧
     (m0.moveToPoint p q).isMoving = true ∧
     (m0.moveToPoint p q).arrivalTime = Vector2Distance p q / m0.speed ∧
     (m0.moveToPoint p q).speed = m0.speed) ∧
    (m.motionTime + FRAME_TIME * m.speed ≤ m.arrivalTime →
      m.update = { m with
        motionTime := m.motionTime + FRAME_TIME * m.speed
        currentPoint :=
          (Lerp m.startPoint.1 m.endPoint.1
            ((m.motionTime + FRAME_TIME * m.speed) / m.arrivalTime),
           Lerp m.startPoint.2 m.endPoint.2
            ((m.motionTime + FRAME_TIME * m.speed) / m.arrivalTime)) }) ∧
    (m.arrivalTime < m.motionTime + FRAME_TIME * m.speed →
      m.update = { currentPoint := q, isMoving := false, startPoint := (0, 0),
                   endPoint := (0, 0), motionTime := 0, arrivalTime := 0,
                   speed := 10 }) := by
  refine ⟨?_, ?_, ?_⟩
  · unfold MotionMaster.moveToPoint
    rw [if_neg hpq]
    exact ⟨rfl, rfl, rfl, rfl, rfl⟩
  · intro h
    unfold MotionMaster.update
    rw [if_pos (by rw [hmv] : m.isMoving = true), if_pos h]
  · intro h
    unfold MotionMaster.update
    rw [if_pos (by rw [hmv] : m.isMoving = true), if_neg (not_le.mpr h)]
    unfold MotionMaster.reset
    rw [← hend]

/-- Witness for C7: a concrete controller moving from (0,0) to (3,4) whose
elapsed time is about to exceed the arrival time snaps to (3,4) and resets. -/
theorem motionMaster_move_update_spec_witness :
    ((defaultMotionMaster.moveToPoint (0, 0) (3, 4)).startPoint = ((0 : ℝ), (0 : ℝ)) ∧
     (defaultMotionMaster.moveToPoint (0, 0) (3, 4)).endPoint = ((3 : ℝ), (4 : ℝ)) ∧
     (defaultMotionMaster.moveToPoint (0, 0) (3, 4)).isMoving = true ∧
     (defaultMotionMaster.moveToPoint (0, 0) (3, 4)).arrivalTime =
       Vector2Distance (0, 0) (3, 4) / defaultMotionMaster.speed ∧
     (defaultMotionMaster.moveToPoint (0, 0) (3, 4)).speed = defaultMotionMaster.speed) ∧
    (MotionMaster.update
        { currentPoint := (0, 0), isMoving := true, startPoint := (0, 0),
          endPoint := (3, 4), motionTime := 1 / 2, arrivalTime := 1 / 2,
          speed := 10 } =
      { currentPoint := (3, 4), isMoving := false, startPoint := (0, 0),
        endPoint := (0, 0), motionTime := 0, arrivalTime := 0, speed := 10 }) := by
  have h := motionMaster_move_update_spec defaultMotionMaster
    { currentPoint := (0, 0), isMoving := true, startPoint := (0, 0),
      endPoint := (3, 4), motionTime := 1 / 2, arrivalTime := 1 / 2, speed := 10 }
    (0, 0) (3, 4) (by simp [Prod.ext_iff]) rfl rfl
  exact ⟨h.1, h.2.2 (by norm_num [FRAME_TIME])⟩

/-- The core's `Wrap` lands in the requested half-open interval. -/
theorem wrap_bounds (x lo hi : ℝ) (h : lo < hi) :
    lo ≤ Wrap x lo hi ∧ Wrap x lo hi < hi := by
  have hne : hi - lo ≠ 0 := by linarith
  have hmul : (hi - lo) * ((x - lo) / (hi - lo)) = x - lo := by
    field_simp
  have he : Wrap x lo hi = lo + (hi - lo) * Int.fract ((x - lo) / (hi - lo)) := by
    unfold Wrap Int.fract
    rw [mul_sub, hmul]
    ring
  have h0 := Int.fract_nonneg ((x - lo) / (hi - lo))
  have h1 := Int.fract_lt_one ((x - lo) / (hi - lo))
  constructor
  · nlinarith
  · nlinarith

/-- C6: For every non-zero 2D vector, `DirectionFromVector` returns a
Direction in `[0, 8)`; the result equals the index nearest to the normalized
angle divided by 45 degrees, wrapped into `[0, 8)` by modulo (the 8th bin
wrapping to bin 0); and the result is unchanged when the vector is scaled by
any positive factor. -/
theorem directionFromVector_spec (v : ℝ × ℝ) (c : ℝ) (_hv : v ≠ (0, 0))
    (hc : 0 < c) :
    (0 ≤ DirectionFromVector v ∧ DirectionFromVector v < 8) ∧
    DirectionFromVector v =
      round (Wrap (Vector2Atan v) 0 (2 * π) / (π / 4)) % 8 ∧
    DirectionFromVector (c * v.1, c * v.2) = DirectionFromVector v := by
  have hpi := Real.pi_pos
  have h2pi : (0 : ℝ) < 2 * π := by linarith
  have hb := wrap_bounds (Vector2Atan v) 0 (2 * π) h2pi
  have harg : Wrap (Vector2Atan v) 0 (2 * π) / (2 * π) * 8
      = Wrap (Vector2Atan v) 0 (2 * π) / (π / 4) := by
    field_simp
    ring
  have ht1 : Wrap (Vector2Atan v) 0 (2 * π) / (2 * π) < 1 :=
    (div_lt_one h2pi).mpr hb.2
  have ht0 : 0 ≤ Wrap (Vector2Atan v) 0 (2 * π) / (2 * π) :=
    div_nonneg hb.1 h2pi.le
  have hidx0 : 0 ≤ round (Wrap (Vector2Atan v) 0 (2 * π) / (2 * π) * 8) := by
    rw [round_eq]
    exact Int.floor_nonneg.mpr (by linarith)
  have hidx8 : round (Wrap (Vector2Atan v) 0 (2 * π) / (2 * π) * 8) ≤ 8 := by
    rw [round_eq]
    have h9 : Wrap (Vector2Atan v) 0 (2 * π) / (2 * π) * 8 + 1 / 2 < ((9 : ℤ) : ℝ) := by
      push_cast
      linarith
    have := Int.floor_lt.mpr h9
    omega
  have hvec : Vector2Atan (c * v.1, c * v.2) = Vector2Atan v := by
    unfold Vector2Atan
    have hz : ((c * v.1 : ℝ) : ℂ) + ((c * v.2 : ℝ) : ℂ) * Complex.I
        = (c : ℂ) * ((v.1 : ℂ) + (v.2 : ℂ) * Complex.I) := by
      push_cast
      ring
    rw [hz]
    exact Complex.arg_real_mul _ hc
  refine ⟨⟨?_, ?_⟩, ?_, ?_⟩
  · unfold DirectionFromVector
    dsimp only
    split_ifs <;> omega
  · unfold DirectionFromVector
    dsimp only
    split_ifs <;> omega
  · unfold DirectionFromVector
    dsimp only
    rw [harg] at hidx0 hidx8 ⊢
    split_ifs <;> omega
  · unfold DirectionFromVector
    rw [hvec]

/-- Witness for C6 at the concrete vector (1, 0) scaled by 2. -/
theorem directionFromVector_spec_witness :
    ((1 : ℝ), (0 : ℝ)) ≠ ((0 : ℝ), (0 : ℝ)) ∧ (0 : ℝ) < 2 ∧
    (0 ≤ DirectionFromVector (1, 0) ∧ DirectionFromVector (1, 0) < 8) ∧
    DirectionFromVector (2 * (1 : ℝ), 2 * (0 : ℝ)) = DirectionFromVector (1, 0) := by
  have h := directionFromVector_spec (1, 0) 2 (by simp [Prod.ext_iff]) (by norm_num)
  exact ⟨by simp [Prod.ext_iff], by norm_num, h.1, h.2.2⟩

/-- The z-sort comparator reports "left not after right" exactly when the
right key is at most the left key (descending order). -/
theorem zCompare_le_iff (a b : Object) : zCompare a b ≤ 0 ↔ zKey b ≤ zKey a := by
  unfold zCompare
  split_ifs with h1 h2
  · exact ⟨fun _ => le_of_lt h1, fun _ => by norm_num⟩
  · exact ⟨fun h => absurd h (by norm_num), fun h => absurd h (not_le.mpr h2)⟩
  · exact ⟨fun _ => not_lt.mp h2, fun _ => le_refl 0⟩

/-- C5: `GetZSortedObjects` returns a list containing every scene object
exactly once (a permutation of the table), ordered by descending sort key
(foot-position-y + zOffset); objects with equal keys may appear in either
relative order. -/
theorem getZSortedObjects_spec (objs : List Object) :
    (GetZSortedObjects objs).Perm objs ∧
    (GetZSortedObjects objs).Pairwise fun a b => zKey b ≤ zKey a := by
  unfold GetZSortedObjects
  haveI htot : IsTotal Object fun a b => zCompare a b ≤ 0 := by
    constructor
    intro a b
    rw [zCompare_le_iff, zCompare_le_iff]
    exact le_total (zKey b) (zKey a)
  haveI htrans : IsTrans Object fun a b => zCompare a b ≤ 0 := by
    constructor
    intro a b c hab hbc
    rw [zCompare_le_iff] at hab hbc ⊢
    exact le_trans hbc hab
  constructor
  · exact List.perm_insertionSort _ objs
  · exact List.Pairwise.imp (fun h => (zCompare_le_iff _ _).mp h)
      (List.sorted_insertionSort _ objs)

/-- C2: For every input file whose first 4 bytes differ from the magic
"KEKW" or whose version field differs from the current version constant,
`LoadScene` returns having mutated nothing — the object table, `numObjects`
and the last-used scene path are exactly as before the call — and a failure
is reported. -/
theorem loadScene_rejects_bad_header (C : AssetCache) (file : List Tok)
    (path : String) (s : Scene)
    (h : (ReadBytes 4 file).1 ≠ sceneMagic ∨
      (ReadInt (ReadBytes 4 file).2).1 ≠ SCENE_VERSION) :
    (LoadScene C (some file) path s).1 = s ∧
    (LoadScene C (some file) path s).2 ≠ LoadResult.success := by
  unfold LoadScene
  dsimp only
  split_ifs with h1 h2
  · exact ⟨rfl, by simp⟩
  · exact ⟨rfl, by simp⟩
  · rcases h with h | h
    · exact absurd h1 (fun hh => hh h)
    · exact absurd h2 (fun hh => hh h)

/-- Witness for C2: loading the empty file leaves a concrete scene state
untouched and does not report success. -/
theorem loadScene_rejects_bad_header_witness :
    (LoadScene { script := fun _ => none, image := fun _ => none,
                 sprite := fun _ => none, texture := fun _ => none }
        (some []) "bad.scene"
        { objects := fun _ => zeroObject, numObjects := 0,
          lastSavedOrLoadedScene := "" }).1 =
      { objects := fun _ => zeroObject, numObjects := 0,
        lastSavedOrLoadedScene := "" } ∧
    (LoadScene { script := fun _ => none, image := fun _ => none,
                 sprite := fun _ => none, texture := fun _ => none }
        (some []) "bad.scene"
        { objects := fun _ => zeroObject, numObjects := 0,
          lastSavedOrLoadedScene := "" }).2 ≠ LoadResult.success :=
  loadScene_rejects_bad_header _ [] "bad.scene" _
    (Or.inl (by simp [ReadBytes, sceneMagic]))

/-- C9: In the Talking state the paragraph index starts at 0 on activation;
an interact press after the current paragraph's reveal is complete increments
the paragraph index, and the state pops itself (returning to the state
beneath) exactly when the incremented index reaches or exceeds the script's
paragraph count — it never pops earlier. -/
theorem talking_paragraph_advance (st0 st : TalkingState) (inp : TalkingInput)
    (hpause : inp.pauseWasPressed = false)
    (hint : inp.interactWasPressed = true)
    (hleft : (inp.devMode && inp.keyLeftPressed) = false)
    (hright : (inp.devMode && inp.keyRightPressed) = false)
    (_hlo : 0 ≤ st.paragraphIndex)
    (hhi : st.paragraphIndex < (st.script.paragraphs.length : ℤ))
    (hdone : ¬ (20 * GetTimeInCurrentGameState st <
      (st.script.paragraphs.getD st.paragraphIndex.toNat
        { speaker := none, duration := 0 }).duration)) :
    (Talking_Init st0).paragraphIndex = 0 ∧
    (Talking_Update inp st).paragraphIndex = st.paragraphIndex + 1 ∧
    (Talking_Update inp st).stack =
      (if st.paragraphIndex + 1 ≥ (st.script.paragraphs.length : ℤ)
       then st.stack.tail else st.stack) := by
  have hclamp : ¬ (st.paragraphIndex ≥ (st.script.paragraphs.length : ℤ)) :=
    not_le.mpr hhi
  unfold GetTimeInCurrentGameState at hdone
  have key : (Talking_Update inp st).paragraphIndex = st.paragraphIndex + 1 ∧
      (Talking_Update inp st).stack =
        (if st.paragraphIndex + 1 ≥ (st.script.paragraphs.length : ℤ)
         then st.stack.tail else st.stack) := by
    unfold Talking_Update
    dsimp only
    rw [hpause, hleft, hright, hint]
    simp only [Bool.false_eq_true, if_false, if_true]
    rw [if_neg hclamp, if_neg hdone]
    by_cases hfin : st.paragraphIndex + 1 ≥ (st.script.paragraphs.length : ℤ)
    · rw [if_pos hfin, if_pos hfin]
      exact ⟨rfl, rfl⟩
    · rw [if_neg hfin, if_neg hfin]
      unfold finishTalking
      exact ⟨rfl, rfl⟩
  exact ⟨rfl, key.1, key.2⟩

/-- Witness for C9: with a 1-paragraph script at paragraph 0 and a completed
reveal, an interact press advances the index to 1 and pops Talking. -/
theorem talking_paragraph_advance_witness :
    (Talking_Init wTalkState).paragraphIndex = 0 ∧
    (Talking_Update wTalkInput wTalkState).paragraphIndex =
      wTalkState.paragraphIndex + 1 ∧
    (Talking_Update wTalkInput wTalkState).stack =
      (if wTalkState.paragraphIndex + 1 ≥
          (wTalkState.script.paragraphs.length : ℤ)
       then wTalkState.stack.tail else wTalkState.stack) :=
  talking_paragraph_advance wTalkState wTalkState wTalkInput rfl rfl rfl rfl
    (by norm_num [wTalkState])
    (by norm_num [wTalkState, wTalkScript])
    (by norm_num [wTalkState, wTalkScript, GetTimeInCurrentGameState, List.getD])

/-- The `CopyString` helper is the identity on strings that fit the destination buffer. -/
theorem copyString_eq_self (s : String) (n : ℕ) (h : s.length ≤ n - 1) :
    CopyString s n = s := by
  unfold CopyString
  rw [List.take_of_length_le h]

/-- Reading back `n` strings written consecutively recovers them. -/
theorem readStrings_append (l : List String) (rest : List Tok) :
    ReadStrings l.length (l.map Tok.str ++ rest) = (l, rest) := by
  induction l with
  | nil => simp [ReadStrings]
  | cons hd tl ih =>
    simp only [List.length_cons, List.map_cons, List.cons_append]
    simp [ReadStrings, ReadString, ih]

/-- Reading back `n` string pairs written consecutively recovers them. -/
theorem readStringPairs_append (l : List (String × String)) (rest : List Tok) :
    ReadStringPairs l.length
      ((l.flatMap fun p => [Tok.str p.1, Tok.str p.2]) ++ rest) = (l, rest) := by
  induction l with
  | nil => simp [ReadStringPairs]
  | cons hd tl ih =>
    simp only [List.length_cons, List.flatMap_cons, List.cons_append,
      List.append_assoc]
    simp [ReadStringPairs, ReadString, ih]

/-- Reading `ReadStrings` against the sprite-path section `WriteObject` emits. -/
theorem readStrings_range_map (f : ℕ → String) (n : ℕ) (rest : List Tok) :
    ReadStrings n (((List.range n).map fun d => Tok.str (f d)) ++ rest) =
      ((List.range n).map f, rest) := by
  have key := readStrings_append ((List.range n).map f) rest
  rw [List.length_map, List.length_range, List.map_map] at key
  exact key

/-- Reading `ReadStringPairs` against the expression section `WriteObject` emits. -/
theorem readStringPairs_range_map (f g : ℕ → String) (n : ℕ) (rest : List Tok) :
    ReadStringPairs n
      (((List.range n).flatMap fun j => [Tok.str (f j), Tok.str (g j)]) ++ rest) =
      ((List.range n).map fun j => (f j, g j), rest) := by
  have key := readStringPairs_append ((List.range n).map fun j => (f j, g j)) rest
  rw [List.length_map, List.length_range, List.flatMap_map] at key
  exact key

/-- A list built by mapping over `List.range n`, read at an index below `n`. -/
theorem getD_range_map {α : Type} (n : ℕ) (f : ℕ → α) (dflt : α) (d : ℕ)
    (h : d < n) : ((List.range n).map f).getD d dflt = f d := by
  rw [List.getD_eq_getElem?_getD, List.getElem?_map, List.getElem?_range h]
  rfl

/-- Reading one object back from its own serialization restores exactly the
serialized fields (truncated through the name buffers and re-acquired through
the asset cache) and leaves the stream after it. -/
theorem readObject_writeObject (C : AssetCache) (prev o : Object)
    (rest : List Tok) :
    ReadObject C prev (WriteObject o ++ rest) = (RestoredObject C prev o, rest) := by
  unfold ReadObject WriteObject
  simp only [List.cons_append, List.append_assoc, List.nil_append]
  simp only [ReadString, ReadFloat, ReadInt]
  rw [readStrings_range_map]
  dsimp only
  rw [readStringPairs_range_map]
  dsimp only
  unfold RestoredObject
  have hs : (fun d => if d < 8 then
        AcquireSprite C
          (((List.range 8).map fun d => GetSpriteAssetPath (o.sprites d)).getD d "")
      else prev.sprites d) =
      (fun d => if d < 8 then AcquireSprite C (GetSpriteAssetPath (o.sprites d))
        else prev.sprites d) := by
    funext d
    by_cases hd : d < 8
    · rw [if_pos hd, if_pos hd, getD_range_map 8 _ _ d hd]
    · rw [if_neg hd, if_neg hd]
  have he : (fun j => if j < 10 then
        ({ name := CopyString (((List.range 10).map fun j =>
              ((o.expressions j).name,
               GetTextureAssetPath (o.expressions j).portrait)).getD j ("", "")).1 32
           portrait := AcquireTexture C
             (((List.range 10).map fun j =>
              ((o.expressions j).name,
               GetTextureAssetPath (o.expressions j).portrait)).getD j ("", "")).2 } : Expression)
      else prev.expressions j) =
      (fun j => if j < 10 then
        ({ name := CopyString (o.expressions j).name 32
           portrait := AcquireTexture C
             (GetTextureAssetPath (o.expressions j).portrait) } : Expression)
      else prev.expressions j) := by
    funext j
    by_cases hj : j < 10
    · rw [if_pos hj, if_pos hj, getD_range_map 10 _ _ j hj]
    · rw [if_neg hj, if_neg hj]
  rw [hs, he]

/-- The `LoadScene` object loop run against the `SaveScene` object loop output
restores every written slot. -/
theorem readObjects_writeObjects (C : AssetCache) (orig : ℕ → Object) :
    ∀ (k i : ℕ) (objs : ℕ → Object) (rest : List Tok),
      ReadObjects C k i objs (WriteObjects orig k i ++ rest) =
        (fun j => if i ≤ j ∧ j < i + k
            then RestoredObject C (objs j) (orig j) else objs j, rest) := by
  intro k
  induction k with
  | zero =>
    intro i objs rest
    simp only [WriteObjects, List.nil_append, ReadObjects]
    refine Prod.ext ?_ rfl
    funext j
    dsimp only
    rw [if_neg (by omega : ¬ (i ≤ j ∧ j < i + 0))]
  | succ k ih =>
    intro i objs rest
    simp only [WriteObjects, ReadObjects, List.append_assoc]
    rw [readObject_writeObject]
    dsimp only
    rw [ih (i + 1) (Function.update objs i (RestoredObject C (objs i) (orig i))) rest]
    refine Prod.ext ?_ rfl
    funext j
    dsimp only
    by_cases hji : j = i
    · subst hji
      rw [if_neg (by omega : ¬ (j + 1 ≤ j ∧ j < j + 1 + k)),
        if_pos (by omega : j ≤ j ∧ j < j + (k + 1)), Function.update_same]
    · by_cases hcond : i + 1 ≤ j ∧ j < i + 1 + k
      · rw [if_pos hcond, Function.update_noteq hji,
          if_pos (by omega : i ≤ j ∧ j < i + (k + 1))]
      · rw [if_neg hcond, Function.update_noteq hji,
          if_neg (by omega : ¬ (i ≤ j ∧ j < i + (k + 1)))]

/-- Running `LoadScene` on the exact buffer `SaveScene` produced for scene `s`
succeeds and rebuilds the table from the stream (destroyed slots as `prev`). -/
theorem loadScene_saveSceneData (C : AssetCache) (s t : Scene) (p : String) :
    LoadScene C (some (SaveSceneData s)) p t =
      ({ objects := fun j =>
            if 0 ≤ j ∧ j < 0 + s.numObjects.toNat
            then RestoredObject C
              (if (j : ℤ) < t.numObjects then zeroObject else t.objects j)
              (s.objects j)
            else (if (j : ℤ) < t.numObjects then zeroObject else t.objects j)
         numObjects := s.numObjects
         lastSavedOrLoadedScene := CopyString p 256 }, LoadResult.success) := by
  have h1 : ReadBytes 4 (SaveSceneData s) =
      (sceneMagic,
        Tok.int SCENE_VERSION :: Tok.int s.numObjects ::
          WriteObjects s.objects s.numObjects.toNat 0) := rfl
  unfold LoadScene
  dsimp only
  rw [h1]
  dsimp only
  rw [if_neg (fun hh => hh rfl)]
  rw [show ReadInt (Tok.int SCENE_VERSION :: Tok.int s.numObjects ::
      WriteObjects s.objects s.numObjects.toNat 0) =
      (SCENE_VERSION, Tok.int s.numObjects ::
        WriteObjects s.objects s.numObjects.toNat 0) from rfl]
  dsimp only
  rw [if_neg (fun hh => hh rfl)]
  rw [show ReadInt (Tok.int s.numObjects ::
      WriteObjects s.objects s.numObjects.toNat 0) =
      (s.numObjects, WriteObjects s.objects s.numObjects.toNat 0) from rfl]
  dsimp only
  have h3 := readObjects_writeObjects C s.objects s.numObjects.toNat 0
    (fun i => if (i : ℤ) < t.numObjects then zeroObject else t.objects i) []
  rw [List.append_nil] at h3
  rw [h3]

/-- C1: For every scene table within capacity (at most 100 objects, each with
at most 10 expressions, names fitting their buffers, assets resolvable through
the external cache), calling `SaveScene` to a path and then `LoadScene` from
that same path reproduces every serialized field of every object exactly: the
object count, and each object's name, position.x, position.y, zOffset,
animationFps, direction, script path, collision-map path, the 8 per-direction
sprite paths, and the 10 expression name/portrait-path pairs. -/
theorem scene_save_load_roundtrip (C : AssetCache) (s : Scene) (path : String)
    (hn0 : 0 ≤ s.numObjects) (hn1 : s.numObjects ≤ 100)
    (hobj : ∀ i : ℕ, (i : ℤ) < s.numObjects → ObjectSavable C (s.objects i)) :
    (RoundTrip C s path).2 = LoadResult.success ∧
    (RoundTrip C s path).1.numObjects = s.numObjects ∧
    ∀ i : ℕ, (i : ℤ) < s.numObjects →
      ((RoundTrip C s path).1.objects i).name = (s.objects i).name ∧
      ((RoundTrip C s path).1.objects i).position = (s.objects i).position ∧
      ((RoundTrip C s path).1.objects i).zOffset = (s.objects i).zOffset ∧
      ((RoundTrip C s path).1.objects i).animationFps = (s.objects i).animationFps ∧
      ((RoundTrip C s path).1.objects i).direction = (s.objects i).direction ∧
      GetScriptAssetPath ((RoundTrip C s path).1.objects i).script =
        GetScriptAssetPath (s.objects i).script ∧
      GetImageAssetPath ((RoundTrip C s path).1.objects i).collisionMap =
        GetImageAssetPath (s.objects i).collisionMap ∧
      (∀ d < 8, GetSpriteAssetPath (((RoundTrip C s path).1.objects i).sprites d) =
        GetSpriteAssetPath ((s.objects i).sprites d)) ∧
      (∀ j < 10,
        (((RoundTrip C s path).1.objects i).expressions j).name =
          ((s.objects i).expressions j).name ∧
        GetTextureAssetPath (((RoundTrip C s path).1.objects i).expressions j).portrait =
          GetTextureAssetPath ((s.objects i).expressions j).portrait) := by
  have hmain : RoundTrip C s path =
      ({ objects := fun j =>
            if 0 ≤ j ∧ j < 0 + s.numObjects.toNat
            then RestoredObject C
              (if (j : ℤ) < s.numObjects then zeroObject else s.objects j)
              (s.objects j)
            else (if (j : ℤ) < s.numObjects then zeroObject else s.objects j)
         numObjects := s.numObjects
         lastSavedOrLoadedScene := CopyString path 256 }, LoadResult.success) :=
    loadScene_saveSceneData C s ((SaveScene s path).2) path
  rw [hmain]
  refine ⟨rfl, rfl, ?_⟩
  intro i hi
  have hiN : i < s.numObjects.toNat := by omega
  have hsel : (if 0 ≤ i ∧ i < 0 + s.numObjects.toNat
      then RestoredObject C
        (if (i : ℤ) < s.numObjects then zeroObject else s.objects i)
        (s.objects i)
      else (if (i : ℤ) < s.numObjects then zeroObject else s.objects i)) =
      RestoredObject C zeroObject (s.objects i) := by
    rw [if_pos ⟨Nat.zero_le i, by omega⟩, if_pos hi]
  dsimp only
  rw [hsel]
  obtain ⟨hname, hexprname, hscript, hcol, hsprites, hportraits⟩ := hobj i hi
  unfold RestoredObject
  refine ⟨?_, rfl, rfl, rfl, rfl, ?_, ?_, ?_, ?_⟩
  · exact copyString_eq_self _ 50 (by omega)
  · rw [hscript]
  · rw [hcol]
  · intro d hd
    dsimp only
    rw [if_pos hd, hsprites d hd]
  · intro j hj
    dsimp only
    rw [if_pos hj]
    exact ⟨copyString_eq_self _ 32 (by
        have := hexprname j hj
        omega),
      by rw [hportraits j hj]⟩

/-- Witness for C1: a concrete one-object scene round-trips through
save-then-load with success and unchanged object count. -/
theorem scene_save_load_roundtrip_witness :
    (0 ≤ wScene.numObjects ∧ wScene.numObjects ≤ 100) ∧
    (RoundTrip wCache wScene "test.scene").2 = LoadResult.success ∧
    (RoundTrip wCache wScene "test.scene").1.numObjects = wScene.numObjects := by
  have hobj : ∀ i : ℕ, (i : ℤ) < wScene.numObjects →
      ObjectSavable wCache (wScene.objects i) := by
    intro i _
    refine ⟨by simp [wScene, zeroObject], ?_, rfl, rfl, ?_, ?_⟩
    · intro j _
      simp [wScene, zeroObject, zeroExpression]
    · intro d _
      rfl
    · intro j _
      rfl
  have h := scene_save_load_roundtrip wCache wScene "test.scene"
    (by norm_num [wScene]) (by norm_num [wScene]) hobj
  exact ⟨⟨by norm_num [wScene], by norm_num [wScene]⟩, h.1, h.2.1⟩

end WhoSun
